import Mathlib

/-!
Verification development for the rltf repository.

The definitions below are shallow embeddings, over exact rational
arithmetic, of:
  - the C51 distributional-DQN model (rltf/models/c51.py): bin support,
    greedy action selection over the expected value, and the
    categorical projection performed by C51._compute_target for a
    single batch row (rows of the batch are independent);
  - the off-policy agent loops (rltf/agents/off_pi.py): the eval()
    step range and the per-iteration event traces of
    SequentialOffPolicyAgent._train, ParallelOffPolicyAgent._train_model
    and ParallelOffPolicyAgent._run_env;
  - the configuration registry (rltf/cmdutils/defaults.py): the named
    presets, their dictionary-merge composition and get_args;
  - the schedule construction of examples/run_dqn_agent.py.
-/

/-- First index attaining the maximum of f on 0, 1, ..., m-1.
Mirrors tf.argmax semantics: ties resolve to the smallest index
(the running best is replaced only on a strictly greater value). -/
def argmaxN (f : ℕ → ℚ) : ℕ → ℕ
  | 0 => 0
  | m + 1 => if f (argmaxN f m) < f m then m else argmaxN f m

namespace c51

/-- Constructor parameters of C51 (c51.py __init__): number of actions,
number N of histogram bins, support bounds V_min and V_max, discount. -/
structure Params where
  n_actions : ℕ
  N : ℕ
  Vmin : ℚ
  Vmax : ℚ
  gamma : ℚ

/-- self.dz = (V_max - V_min) / float(N - 1) -/
def dz (p : Params) : ℚ := (p.Vmax - p.Vmin) / ((p.N - 1 : ℕ) : ℚ)

/-- bins = np.arange(V_min, V_max + dz, dz): entry j is V_min + j * dz. -/
def binVal (p : Params) (j : ℕ) : ℚ := p.Vmin + (j : ℚ) * dz p

/-- tf.clip_by_value(x, lo, hi) = min(max(x, lo), hi). -/
def clip (x lo hi : ℚ) : ℚ := min (max x lo) hi

/-- Expected value of the distribution of action a:
tf.reduce_sum(net * self.bins, axis=-1), one batch row. -/
def q (p : Params) (net : ℕ → ℕ → ℚ) (a : ℕ) : ℚ :=
  ∑ j in Finset.range p.N, net a j * binVal p j

/-- C51._act_train: action = tf.argmax(q, axis=-1), one batch row. -/
def act_train (p : Params) (net : ℕ → ℕ → ℚ) : ℕ :=
  argmaxN (q p net) p.n_actions

/-- C51._act_eval: the method body is literally return None. -/
def act_eval (_p : Params) (_net : ℕ → ℕ → ℚ) : Option ℕ := none

/-- Greedy action under the target network used by _compute_target:
target_act = tf.argmax(tf.reduce_sum(target_z * bins, -1), axis=-1). -/
def targetAct (p : Params) (target_net : ℕ → ℕ → ℚ) : ℕ :=
  argmaxN (q p target_net) p.n_actions

/-- done_mask = tf.cast(tf.logical_not(done), tf.float32). -/
def doneMask (done : Bool) : ℚ := if done then 0 else 1

/-- target_bins = clip(rew + gamma * done_mask * bins, V_min, V_max),
entry j of one batch row. -/
def targetBin (p : Params) (rew : ℚ) (done : Bool) (j : ℕ) : ℚ :=
  clip (rew + p.gamma * doneMask done * binVal p j) p.Vmin p.Vmax

/-- bin_inds = (target_bins - V_min) / dz, entry j of one batch row. -/
def binInd (p : Params) (rew : ℚ) (done : Bool) (j : ℕ) : ℚ :=
  (targetBin p rew done j - p.Vmin) / dz p

/-- lo_add = target_z * (bin_inds_hi - bin_inds), entry j. -/
def loAdd (p : Params) (zsel : ℕ → ℚ) (rew : ℚ) (done : Bool) (j : ℕ) : ℚ :=
  zsel j * ((⌈binInd p rew done j⌉ : ℚ) - binInd p rew done j)

/-- hi_add = target_z * (bin_inds - bin_inds_lo), entry j. -/
def hiAdd (p : Params) (zsel : ℕ → ℚ) (rew : ℚ) (done : Bool) (j : ℕ) : ℚ :=
  zsel j * (binInd p rew done j - (⌊binInd p rew done j⌋ : ℚ))

/-- One row of the two scatter_nd_add calls on the zero-initialized
variable: destination bin i accumulates lo_add j from every source bin
j whose floored index is i, and hi_add j from every source bin j whose
ceiled index is i (duplicate indices accumulate additively). -/
def projectRow (p : Params) (zsel : ℕ → ℚ) (rew : ℚ) (done : Bool) (i : ℕ) : ℚ :=
  ∑ j in Finset.range p.N,
    ((if ⌊binInd p rew done j⌋ = (i : ℤ) then loAdd p zsel rew done j else 0)
      + (if ⌈binInd p rew done j⌉ = (i : ℤ) then hiAdd p zsel rew done j else 0))

/-- C51._compute_target for one batch row: select the greedy action's
distribution from the target network, then project. -/
def compute_target (p : Params) (target_net : ℕ → ℕ → ℚ) (rew : ℚ) (done : Bool) :
    ℕ → ℚ :=
  projectRow p (target_net (targetAct p target_net)) rew done

/-- Concrete instance: one action, two bins over [0, 1], gamma = 0.99. -/
def p0 : Params := ⟨1, 2, 0, 1, 99 / 100⟩

/-- Concrete target-network output: uniform distribution on the 2 bins. -/
def z0 : ℕ → ℕ → ℚ := fun _ _ => 1 / 2

/-- Concrete instance: two actions, two bins over [0, 1], gamma = 0.99. -/
def p1 : Params := ⟨2, 2, 0, 1, 99 / 100⟩

/-- Concrete network output: action 0 holds bin 0, action 1 holds bin 1,
so the greedy action under the expected value is action 1. -/
def net1 : ℕ → ℕ → ℚ := fun a j =>
  if a = 0 then (if j = 0 then 1 else 0) else (if j = 0 then 0 else 1)

end c51

namespace offpi

/-- OffPolicyAgent.eval(): stop_step = start_step + eval_len rounded via
stop_step - stop_step % eval_len + 1, where start_step = t_eval + 1 and
c is the persisted eval-step counter t_eval. -/
def evalStopStep (eval_len c : ℕ) : ℕ :=
  (c + 1 + eval_len) - (c + 1 + eval_len) % eval_len + 1

/-- The steps t iterated by for t in range(start_step, stop_step)
inside OffPolicyAgent.eval(), absent termination. -/
def evalSteps (eval_len c : ℕ) : List ℕ :=
  List.range' (c + 1) (evalStopStep eval_len c - (c + 1))

/-- Observable actions of one iteration of the off-policy agent loops
(off_pi.py), in source order. -/
inductive Event where
  | runEval | reset | actTrain | actRandom | incStep | envStep | store
  | trainStep | save | logStats
  | waitStored | signalSampled | waitActChosen | waitTrainDone
  | signalActChosen | signalTrainDone | brk
deriving DecidableEq

/-- The loop-relevant configuration fields of an off-policy agent. -/
structure AgentConf where
  warm_up : ℕ
  train_freq : ℕ
  save_freq : ℕ
  eval_freq : ℕ
  eval_len : ℕ

/-- Event trace of one iteration (loop step t) of
SequentialOffPolicyAgent._train, in the source's statement order.
term is whether self._terminate was observed set this iteration,
ls is self.learn_started, done is the env-step result. -/
def seqTrainIter (cf : AgentConf) (term ls done : Bool) (t : ℕ) : List Event :=
  if term then [Event.brk]
  else
    (if 0 < cf.eval_len ∧ t % cf.eval_freq = 0 then [Event.runEval, Event.reset] else [])
    ++ [if ls then Event.actTrain else Event.actRandom]
    ++ [Event.incStep, Event.envStep, Event.store]
    ++ (if done then [Event.reset] else [])
    ++ (if cf.warm_up ≤ t ∧ t % cf.train_freq = 0 then [Event.trainStep] else [])
    ++ (if 0 < cf.save_freq ∧ t % cf.save_freq = 0 then [Event.save] else [])
    ++ [Event.logStats]

/-- Event trace of one iteration (loop step t) of
ParallelOffPolicyAgent._train_model, in the source's statement order. -/
def parTrainIter (cf : AgentConf) (term : Bool) (t : ℕ) : List Event :=
  if term then [Event.signalTrainDone, Event.brk]
  else
    (if cf.warm_up ≤ t ∧ t % cf.train_freq = 0 then [Event.trainStep]
      else [Event.waitStored, Event.signalSampled, Event.waitActChosen])
    ++ (if 0 < cf.save_freq ∧ t % cf.save_freq = 0 then [Event.save] else [])
    ++ [Event.signalTrainDone]

/-- Event trace of one iteration (loop step t) of
ParallelOffPolicyAgent._run_env, in the source's statement order. -/
def parEnvIter (cf : AgentConf) (term ls done : Bool) (t : ℕ) : List Event :=
  if term then [Event.signalActChosen, Event.brk]
  else
    (if 0 < cf.eval_len ∧ t % cf.eval_freq = 0 then [Event.runEval, Event.reset] else [])
    ++ [if ls then Event.actTrain else Event.actRandom]
    ++ [Event.signalActChosen, Event.incStep, Event.envStep, Event.store,
        Event.logStats, Event.waitTrainDone]
    ++ (if done then [Event.reset] else [])

/-- The DQN-family loop configuration (warm_up 50000, train_freq 4,
save_freq 10^6, eval_freq 250000, eval_len 125000). -/
def cf0 : AgentConf := ⟨50000, 4, 1000000, 250000, 125000⟩

end offpi

namespace defaults

/-- A configuration value in a preset dictionary of
rltf/cmdutils/defaults.py: a Python int, float, bool, class reference,
None, list of ints, list of (step, value) endpoints, lambda, or a
deferred ArgSpec(ctor, kwargs) record. -/
inductive Val where
  | nat : ℕ → Val
  | rat : ℚ → Val
  | bool : Bool → Val
  | cls : String → Val
  | pyNone : Val
  | nats : List ℕ → Val
  | points : List (ℕ × ℚ) → Val
  | lam : String → Val
  | argSpec : String → List (String × Val) → Val

/-- A preset dictionary, viewed by key lookup. -/
def Preset : Type := String → Option Val

/-- Python dictionary merge as in the source: a later dict's keys
override an earlier dict's keys. Lookup view of d = dict(a, b). -/
def pyMerge (a b : Preset) : Preset := fun k =>
  match b k with
  | some v => some v
  | none => a k

/-- The empty override dictionary. -/
def emptyOver : Preset := fun _ => none

/-- dqn_spec: the shared DQN-family base preset. -/
def dqn_spec : Preset := fun k =>
  if k = "warm_up" then some (Val.nat 50000)
  else if k = "train_period" then some (Val.nat 4)
  else if k = "target_update_period" then some (Val.nat 10000)
  else if k = "stop_step" then some (Val.nat 50000000)
  else if k = "eval_period" then some (Val.nat 250000)
  else if k = "eval_len" then some (Val.nat 125000)
  else if k = "batch_size" then some (Val.nat 32)
  else if k = "gamma" then some (Val.rat (99 / 100))
  else if k = "memory_size" then some (Val.nat 1000000)
  else if k = "stack_frames" then some (Val.nat 4)
  else if k = "log_period" then some (Val.nat 50000)
  else if k = "save_period" then some (Val.nat 1000000)
  else if k = "video_period" then some (Val.nat 1000)
  else if k = "save_buf" then some (Val.bool true)
  else if k = "env_kwargs" then some (Val.argSpec "dict"
    [("max_ep_steps_train", Val.nat 108000), ("max_ep_steps_eval", Val.nat 108000)])
  else none

/-- The RMSProp optimizer ArgSpec shared by DQN, DDQN and BstrapDQN. -/
def rmsOptConf : Val :=
  Val.argSpec "OptimizerConf"
    [("opt_type", Val.cls "RMSPropOptimizer"), ("learn_rate", Val.rat (25 / 100000)),
     ("epsilon", Val.rat (1 / 100000)), ("decay", Val.rat (95 / 100))]

/-- epsilon_train=ArgSpec(PiecewiseSchedule, ...) shared by the
DQN-family presets. -/
def epsTrainSpec : Val :=
  Val.argSpec "PiecewiseSchedule"
    [("endpoints", Val.points [(0, 1), (1000000, 1 / 100)]),
     ("outside_value", Val.rat (1 / 100))]

/-- The dict of algorithm-specific keys merged over dqn_spec for DQN. -/
def DQN_over : Preset := fun k =>
  if k = "agent" then some (Val.cls "agents.AgentDQN")
  else if k = "model" then some (Val.cls "models.DQN")
  else if k = "huber_loss" then some (Val.bool true)
  else if k = "opt_conf" then some rmsOptConf
  else if k = "epsilon_train" then some epsTrainSpec
  else if k = "epsilon_eval" then some (Val.rat (1 / 1000))
  else none

/-- The dict of algorithm-specific keys merged over dqn_spec for DDQN. -/
def DDQN_over : Preset := fun k =>
  if k = "agent" then some (Val.cls "agents.AgentDQN")
  else if k = "model" then some (Val.cls "models.DDQN")
  else if k = "huber_loss" then some (Val.bool true)
  else if k = "opt_conf" then some rmsOptConf
  else if k = "epsilon_train" then some epsTrainSpec
  else if k = "epsilon_eval" then some (Val.rat (1 / 1000))
  else none

/-- The dict of algorithm-specific keys merged over dqn_spec for
BstrapDQN. -/
def BstrapDQN_over : Preset := fun k =>
  if k = "agent" then some (Val.cls "agents.AgentDQN")
  else if k = "model" then some (Val.cls "models.BstrapDQN")
  else if k = "n_heads" then some (Val.nat 10)
  else if k = "huber_loss" then some (Val.bool true)
  else if k = "opt_conf" then some rmsOptConf
  else if k = "epsilon_train" then some epsTrainSpec
  else if k = "epsilon_eval" then some (Val.rat (1 / 1000))
  else none

/-- The dict of algorithm-specific keys merged over dqn_spec for C51. -/
def C51_over : Preset := fun k =>
  if k = "agent" then some (Val.cls "agents.AgentDQN")
  else if k = "model" then some (Val.cls "models.C51")
  else if k = "V_min" then some (Val.rat (-10))
  else if k = "V_max" then some (Val.rat 10)
  else if k = "N" then some (Val.nat 51)
  else if k = "opt_conf" then some (Val.argSpec "OptimizerConf"
    [("opt_type", Val.cls "AdamOptimizer"), ("learn_rate", Val.rat (25 / 100000)),
     ("epsilon", Val.rat (1 / 3200))])
  else if k = "epsilon_train" then some epsTrainSpec
  else if k = "epsilon_eval" then some (Val.rat (1 / 1000))
  else none

/-- The dict of algorithm-specific keys merged over dqn_spec for QRDQN. -/
def QRDQN_over : Preset := fun k =>
  if k = "agent" then some (Val.cls "agents.AgentDQN")
  else if k = "model" then some (Val.cls "models.QRDQN")
  else if k = "N" then some (Val.nat 200)
  else if k = "k" then some (Val.nat 1)
  else if k = "opt_conf" then some (Val.argSpec "OptimizerConf"
    [("opt_type", Val.cls "AdamOptimizer"), ("learn_rate", Val.rat (5 / 100000)),
     ("epsilon", Val.rat (1 / 3200))])
  else if k = "epsilon_train" then some epsTrainSpec
  else if k = "epsilon_eval" then some (Val.rat (1 / 1000))
  else none

/-- The dict merged over BstrapDQN for BstrapDQN_UCB. -/
def BstrapDQN_UCB_over : Preset := fun k =>
  if k = "n_stds" then some (Val.rat (1 / 10))
  else if k = "target_update_period" then some (Val.nat 40000)
  else none

/-- DQN preset: dict(dqn_spec, DQN-specific overrides). -/
def DQN : Preset := pyMerge dqn_spec DQN_over

/-- DDQN preset. -/
def DDQN : Preset := pyMerge dqn_spec DDQN_over

/-- BstrapDQN preset. -/
def BstrapDQN : Preset := pyMerge dqn_spec BstrapDQN_over

/-- C51 preset. -/
def C51 : Preset := pyMerge dqn_spec C51_over

/-- QRDQN preset. -/
def QRDQN : Preset := pyMerge dqn_spec QRDQN_over

/-- BstrapDQN_UCB preset: dict(BstrapDQN, n_stds / target overrides). -/
def BstrapDQN_UCB : Preset := pyMerge BstrapDQN BstrapDQN_UCB_over

/-- BstrapDQN_Ensemble = a shallow copy of BstrapDQN with no overrides. -/
def BstrapDQN_Ensemble : Preset := pyMerge BstrapDQN emptyOver

/-- DDPG preset (not derived from dqn_spec). -/
def DDPG : Preset := fun k =>
  if k = "agent" then some (Val.cls "agents.AgentDDPG")
  else if k = "model" then some (Val.cls "models.DDPG")
  else if k = "obs_norm" then some (Val.bool false)
  else if k = "batch_norm" then some (Val.bool false)
  else if k = "critic_reg" then some (Val.rat 0)
  else if k = "critic_huber_loss" then some (Val.bool false)
  else if k = "tau" then some (Val.rat (1 / 1000))
  else if k = "batch_size" then some (Val.nat 64)
  else if k = "gamma" then some (Val.rat (99 / 100))
  else if k = "memory_size" then some (Val.nat 1000000)
  else if k = "stack_frames" then some (Val.nat 3)
  else if k = "actor_opt_conf" then some (Val.argSpec "OptimizerConf"
    [("opt_type", Val.cls "AdamOptimizer"), ("learn_rate", Val.rat (1 / 10000))])
  else if k = "critic_opt_conf" then some (Val.argSpec "OptimizerConf"
    [("opt_type", Val.cls "AdamOptimizer"), ("learn_rate", Val.rat (1 / 1000))])
  else if k = "action_noise" then some (Val.lam "DecayedExplorationNoise")
  else if k = "warm_up" then some (Val.nat 10000)
  else if k = "train_period" then some (Val.nat 1)
  else if k = "target_update_period" then some (Val.nat 1)
  else if k = "stop_step" then some (Val.nat 2500000)
  else if k = "eval_period" then some (Val.nat 500000)
  else if k = "eval_len" then some (Val.nat 50000)
  else if k = "log_period" then some (Val.nat 50000)
  else if k = "video_period" then some (Val.nat 500)
  else if k = "save_period" then some (Val.nat 500000)
  else if k = "save_buf" then some (Val.bool true)
  else if k = "env_kwargs" then some (Val.argSpec "dict"
    [("max_ep_steps_train", Val.pyNone), ("max_ep_steps_eval", Val.pyNone),
     ("rew_scale", Val.rat 1)])
  else none

/-- REINFORCE preset. -/
def REINFORCE : Preset := fun k =>
  if k = "agent" then some (Val.cls "agents.AgentPG")
  else if k = "model" then some (Val.cls "models.REINFORCE")
  else if k = "pi_opt_conf" then some (Val.argSpec "OptimizerConf"
    [("opt_type", Val.cls "AdamOptimizer"), ("learn_rate", Val.rat (5 / 1000))])
  else if k = "vf_opt_conf" then some (Val.argSpec "OptimizerConf"
    [("opt_type", Val.cls "AdamOptimizer"), ("learn_rate", Val.rat (5 / 1000))])
  else if k = "layers" then some (Val.nats [64, 64])
  else if k = "activation" then some (Val.cls "tf.tanh")
  else if k = "obs_norm" then some (Val.bool false)
  else if k = "nn_std" then some (Val.bool false)
  else if k = "gamma" then some (Val.rat (99 / 100))
  else if k = "lam" then some (Val.rat (97 / 100))
  else if k = "path_len" then some (Val.nat 1000)
  else if k = "stop_step" then some (Val.nat 1000000)
  else if k = "vf_iters" then some (Val.nat 1)
  else if k = "stack_frames" then some (Val.nat 3)
  else if k = "eval_period" then some (Val.nat 10)
  else if k = "eval_len" then some (Val.nat 1000)
  else if k = "log_period" then some (Val.nat 1)
  else if k = "video_period" then some (Val.nat 500)
  else if k = "save_period" then some (Val.nat 10)
  else if k = "env_kwargs" then some (Val.argSpec "dict"
    [("max_ep_steps_train", Val.pyNone), ("max_ep_steps_eval", Val.pyNone),
     ("rew_scale", Val.rat 1)])
  else none

/-- PPO preset. -/
def PPO : Preset := fun k =>
  if k = "agent" then some (Val.cls "agents.AgentPPO")
  else if k = "model" then some (Val.cls "models.PPO")
  else if k = "pi_opt_conf" then some (Val.argSpec "OptimizerConf"
    [("opt_type", Val.cls "AdamOptimizer"), ("learn_rate", Val.rat (5 / 1000))])
  else if k = "vf_opt_conf" then some (Val.argSpec "OptimizerConf"
    [("opt_type", Val.cls "AdamOptimizer"), ("learn_rate", Val.rat (5 / 1000))])
  else if k = "layers" then some (Val.nats [64, 64])
  else if k = "activation" then some (Val.cls "tf.tanh")
  else if k = "obs_norm" then some (Val.bool false)
  else if k = "nn_std" then some (Val.bool false)
  else if k = "ent_weight" then some (Val.rat (1 / 10))
  else if k = "vf_weight" then some (Val.rat (1 / 2))
  else if k = "gamma" then some (Val.rat (99 / 100))
  else if k = "lam" then some (Val.rat (95 / 100))
  else if k = "path_len" then some (Val.nat 1000)
  else if k = "train_steps" then some (Val.nat 4)
  else if k = "batch_size" then some (Val.nat 512)
  else if k = "clip_range" then some (Val.argSpec "ConstSchedule"
    [("value", Val.rat (1 / 5))])
  else if k = "stop_step" then some (Val.nat 1000000)
  else if k = "stack_frames" then some (Val.nat 3)
  else if k = "eval_period" then some (Val.nat 10)
  else if k = "eval_len" then some (Val.nat 1000)
  else if k = "log_period" then some (Val.nat 1)
  else if k = "video_period" then some (Val.nat 500)
  else if k = "save_period" then some (Val.nat 10)
  else if k = "env_kwargs" then some (Val.argSpec "dict"
    [("max_ep_steps_train", Val.pyNone), ("max_ep_steps_eval", Val.pyNone),
     ("rew_scale", Val.rat 1)])
  else none

/-- The MODELS catalogue, in source order. -/
def MODELS : List (String × Preset) :=
  [("DQN", DQN), ("DDQN", DDQN), ("C51", C51), ("QRDQN", QRDQN),
   ("BstrapDQN", BstrapDQN), ("BstrapDQN_UCB", BstrapDQN_UCB),
   ("BstrapDQN_Ensemble", BstrapDQN_Ensemble), ("DDPG", DDPG),
   ("REINFORCE", REINFORCE), ("PPO", PPO)]

/-- The catalogued model names, in source order. -/
def modelNames : List String :=
  ["DQN", "DDQN", "C51", "QRDQN", "BstrapDQN", "BstrapDQN_UCB",
   "BstrapDQN_Ensemble", "DDPG", "REINFORCE", "PPO"]

/-- get_args(model) = MODELS[model]; the Python KeyError on a missing
key is modelled as none. -/
def get_args (model : String) : Option Preset := MODELS.lookup model

end defaults

namespace rundqn

/-- A schedule object as constructed by run_dqn_agent.make_agent:
either ConstSchedule(value) or
PiecewiseSchedule(endpoints, outside_value). -/
inductive Schedule where
  | constSchedule : ℚ → Schedule
  | piecewiseSchedule : List (ℤ × ℚ) → ℚ → Schedule
deriving DecidableEq

/-- The schedule-construction fragment of make_agent: the learning-rate
schedule ConstSchedule(args.learn_rate), and the exploration schedule
chosen by branching on args.explore_decay > 0. -/
def make_schedules (learn_rate : ℚ) (explore_decay : ℤ) : Schedule × Schedule :=
  (Schedule.constSchedule learn_rate,
    if 0 < explore_decay then
      Schedule.piecewiseSchedule [(0, 1), (explore_decay, 1 / 100)] (1 / 100)
    else Schedule.constSchedule 0)

end rundqn

/-- The first index attaining the maximum of f on 0..m-1 is below m. -/
theorem argmaxN_lt (f : ℕ → ℚ) (m : ℕ) (h : 0 < m) : argmaxN f m < m := by
  induction m with
  | zero => omega
  | succ n ih =>
    simp only [argmaxN]
    split
    · omega
    · rcases Nat.eq_zero_or_pos n with hn | hn
      · subst hn; simp [argmaxN]
      · exact Nat.lt_succ_of_lt (ih hn)

/-- argmaxN attains the maximum of f on 0..m-1. -/
theorem le_f_argmaxN (f : ℕ → ℚ) (m a : ℕ) (h : a < m) : f a ≤ f (argmaxN f m) := by
  induction m with
  | zero => omega
  | succ n ih =>
    simp only [argmaxN]
    split_ifs with hlt
    · rcases Nat.lt_succ_iff_lt_or_eq.1 h with h' | h'
      · exact le_trans (ih h') (le_of_lt hlt)
      · subst h'; exact le_refl _
    · rcases Nat.lt_succ_iff_lt_or_eq.1 h with h' | h'
      · exact ih h'
      · subst h'; exact not_lt.1 hlt

/-- A lookup for a key different from every stored key returns none. -/
theorem lookup_eq_none_of_forall_ne (l : List (String × defaults.Preset)) (k : String)
    (h : ∀ p ∈ l, k ≠ p.1) : l.lookup k = none := by
  induction l with
  | nil => rfl
  | cons hd tl ih =>
    obtain ⟨k1, v1⟩ := hd
    have h1 : k ≠ k1 := h (k1, v1) (List.mem_cons_self _ _)
    have hb : (k == k1) = false := beq_eq_false_iff_ne.2 h1
    simp only [List.lookup, hb]
    exact ih fun p hp => h p (List.mem_cons_of_mem _ hp)

namespace offpi

/-- C2: for every eval_len > 0 and persisted eval-step counter c,
eval() iterates exactly the steps t with c + 1 <= t < evalStopStep;
the last executed step is evalStopStep - 1, which is a positive
multiple of eval_len and at least c + 1, so a run resumed strictly
inside a window is realigned to an eval_len boundary. -/
theorem eval_window_realignment (eval_len c : ℕ) (h : 0 < eval_len) :
    (∀ t, t ∈ evalSteps eval_len c ↔ c + 1 ≤ t ∧ t < evalStopStep eval_len c) ∧
    (evalStopStep eval_len c - 1) ∈ evalSteps eval_len c ∧
    (∀ t ∈ evalSteps eval_len c, t ≤ evalStopStep eval_len c - 1) ∧
    eval_len ∣ (evalStopStep eval_len c - 1) ∧
    c + 1 ≤ evalStopStep eval_len c - 1 := by
  have hmlt : (c + 1 + eval_len) % eval_len < eval_len := Nat.mod_lt _ h
  have hdvd0 : eval_len ∣ ((c + 1 + eval_len) - (c + 1 + eval_len) % eval_len) :=
    Nat.dvd_sub_mod _
  simp only [evalSteps, evalStopStep] at *
  generalize hR : (c + 1 + eval_len) % eval_len = r at hmlt hdvd0 ⊢
  have hmem : ∀ t, t ∈ List.range' (c + 1) ((c + 1 + eval_len) - r + 1 - (c + 1)) ↔
      c + 1 ≤ t ∧ t < (c + 1 + eval_len) - r + 1 := by
    intro t
    rw [List.mem_range'_1]
    omega
  refine ⟨hmem, (hmem _).2 (by omega), fun t ht => ?_, by simpa using hdvd0, by omega⟩
  have := (hmem t).1 ht
  omega

/-- Witness for eval_window_realignment at eval_len = 2, c = 3. -/
theorem eval_window_realignment_witness :
    0 < 2 ∧ 2 ∣ (evalStopStep 2 3 - 1) ∧ (evalStopStep 2 3 - 1) ∈ evalSteps 2 3 :=
  ⟨by decide, (eval_window_realignment 2 3 (by decide)).2.2.2.1,
   (eval_window_realignment 2 3 (by decide)).2.1⟩

/-- C7: in ParallelOffPolicyAgent, an iteration that observes the
termination flag makes the environment thread set act_chosen and the
training thread set train_done, unconditionally, before breaking out
of its loop, so the peer thread is released. -/
theorem termination_releases_peer (cf : AgentConf) (ls done : Bool) (t : ℕ) :
    parEnvIter cf true ls done t = [Event.signalActChosen, Event.brk] ∧
    parTrainIter cf true t = [Event.signalTrainDone, Event.brk] :=
  ⟨rfl, rfl⟩

/-- C6: in SequentialOffPolicyAgent._train and
ParallelOffPolicyAgent._train_model, a training step runs at loop step
t iff t >= warm_up and t mod train_freq = 0 and the termination flag
was not observed; in particular never before warm_up. -/
theorem warmup_training_gate (cf : AgentConf) (ls done : Bool) (t : ℕ) :
    (Event.trainStep ∈ seqTrainIter cf false ls done t ↔
      cf.warm_up ≤ t ∧ t % cf.train_freq = 0) ∧
    (Event.trainStep ∈ parTrainIter cf false t ↔
      cf.warm_up ≤ t ∧ t % cf.train_freq = 0) ∧
    Event.trainStep ∉ seqTrainIter cf true ls done t ∧
    Event.trainStep ∉ parTrainIter cf true t ∧
    (t < cf.warm_up → Event.trainStep ∉ seqTrainIter cf false ls done t ∧
      Event.trainStep ∉ parTrainIter cf false t) := by
  have hseq : Event.trainStep ∈ seqTrainIter cf false ls done t ↔
      cf.warm_up ≤ t ∧ t % cf.train_freq = 0 := by
    cases ls <;> cases done <;>
      simp only [seqTrainIter, Bool.false_eq_true, if_false, List.mem_append,
        List.mem_cons, List.mem_singleton, List.not_mem_nil] <;>
      split_ifs <;> simp_all
  have hpar : Event.trainStep ∈ parTrainIter cf false t ↔
      cf.warm_up ≤ t ∧ t % cf.train_freq = 0 := by
    simp only [parTrainIter, Bool.false_eq_true, if_false, List.mem_append,
      List.mem_cons, List.mem_singleton, List.not_mem_nil]
    split_ifs <;> simp_all
  refine ⟨hseq, hpar, by simp [seqTrainIter], by simp [parTrainIter], fun hw => ⟨?_, ?_⟩⟩
  · intro hmem
    exact absurd (hseq.1 hmem).1 (by omega)
  · intro hmem
    exact absurd (hpar.1 hmem).1 (by omega)

/-- Witness for warmup_training_gate at the DQN configuration, t = 3. -/
theorem warmup_training_gate_witness :
    3 < cf0.warm_up ∧ Event.trainStep ∉ seqTrainIter cf0 false true false 3 ∧
    Event.trainStep ∉ parTrainIter cf0 false 3 :=
  ⟨by decide, ((warmup_training_gate cf0 true false 3).2.2.2.2 (by decide)).1,
   ((warmup_training_gate cf0 true false 3).2.2.2.2 (by decide)).2⟩

end offpi

namespace c51

/-- C1 fails on the code: with one action, two bins over [0, 1],
gamma = 0.99 in [0, 1], V_min = 0 < 1 = V_max, N = 2, reward 1 and
done = true, the target distribution (1/2, 1/2) sums to 1, yet the
projected index (clip(1) - V_min) / dz = 1 is integral, its floor and
ceil coincide, lo_add and hi_add both vanish, and the projected
distribution produced by _compute_target sums to 0, not 1. -/
theorem mass_lost_on_grid_point :
    (0 : ℚ) ≤ p0.gamma ∧ p0.gamma ≤ 1 ∧ p0.Vmin < p0.Vmax ∧ 2 ≤ p0.N ∧
    (∑ j in Finset.range p0.N, z0 (targetAct p0 z0) j = 1) ∧
    (∑ i in Finset.range p0.N, compute_target p0 z0 1 true i = 0) ∧
    ¬(∑ i in Finset.range p0.N, compute_target p0 z0 1 true i = 1) := by
  norm_num [p0, z0, compute_target, projectRow, targetAct, argmaxN, q, binVal, dz,
    doneMask, targetBin, binInd, loAdd, hiAdd, clip, Finset.sum_range_succ]

/-- C3 fails on the code: with done = true and reward 0, the clipped
reward equals bin 0's value, the target distribution sums to 1, yet
_compute_target returns 0 at every bin instead of placing mass 1 at
bin 0: the projected index is integral and both scatter additions
vanish. -/
theorem terminal_target_zero_on_grid_point :
    clip (0 : ℚ) p0.Vmin p0.Vmax = binVal p0 0 ∧
    (∑ j in Finset.range p0.N, z0 (targetAct p0 z0) j = 1) ∧
    compute_target p0 z0 0 true 0 = 0 ∧
    compute_target p0 z0 0 true 1 = 0 ∧
    ¬(compute_target p0 z0 0 true 0 = 1) := by
  norm_num [p0, z0, compute_target, projectRow, targetAct, argmaxN, q, binVal, dz,
    doneMask, targetBin, binInd, loAdd, hiAdd, clip, Finset.sum_range_succ]

/-- C4 as stated is false: _act_eval does not return the greedy argmax
action selection; its body is return None. -/
theorem act_eval_not_greedy :
    act_eval p1 net1 = none ∧ ¬(act_eval p1 net1 = some (act_train p1 net1)) := by
  simp [act_eval]

/-- C4 amended: _act_train returns the greedy argmax over actions of
the expected value of the output distribution (first index attaining
the maximum), while _act_eval builds no action selection and returns
None. -/
theorem action_selection (p : Params) (net : ℕ → ℕ → ℚ) :
    (0 < p.n_actions → act_train p net < p.n_actions) ∧
    (∀ a, a < p.n_actions → q p net a ≤ q p net (act_train p net)) ∧
    act_eval p net = none :=
  ⟨fun h => argmaxN_lt _ _ h, fun _a ha => le_f_argmaxN _ _ _ ha, rfl⟩

/-- Witness for action_selection at the two-action instance. -/
theorem action_selection_witness :
    0 < p1.n_actions ∧ act_train p1 net1 < p1.n_actions ∧
    q p1 net1 0 ≤ q p1 net1 (act_train p1 net1) ∧ act_eval p1 net1 = none :=
  ⟨by decide, (action_selection p1 net1).1 (by decide),
   (action_selection p1 net1).2.1 0 (by decide), (action_selection p1 net1).2.2⟩

end c51

namespace defaults

/-- C5: get_args("DQN")["warm_up"] = 50000, present in dqn_spec and not
overridden by the DQN-specific dict; and
get_args("BstrapDQN_UCB")["target_update_period"] = 40000, the
UCB-specific override of the 10000 that BstrapDQN inherits from
dqn_spec. -/
theorem registry_composition :
    get_args "DQN" = some DQN ∧
    DQN "warm_up" = some (Val.nat 50000) ∧
    DQN_over "warm_up" = none ∧
    dqn_spec "warm_up" = some (Val.nat 50000) ∧
    get_args "BstrapDQN_UCB" = some BstrapDQN_UCB ∧
    BstrapDQN_UCB "target_update_period" = some (Val.nat 40000) ∧
    BstrapDQN_UCB_over "target_update_period" = some (Val.nat 40000) ∧
    BstrapDQN "target_update_period" = some (Val.nat 10000) ∧
    dqn_spec "target_update_period" = some (Val.nat 10000) :=
  ⟨rfl, rfl, rfl, rfl, rfl, rfl, rfl, rfl, rfl⟩

/-- C8: get_args returns the stored preset for each of the ten
catalogued names, and returns nothing (the lookup fails) for every
other name. -/
theorem get_args_lookup :
    (get_args "DQN" = some DQN ∧ get_args "DDQN" = some DDQN ∧
      get_args "C51" = some C51 ∧ get_args "QRDQN" = some QRDQN ∧
      get_args "BstrapDQN" = some BstrapDQN ∧
      get_args "BstrapDQN_UCB" = some BstrapDQN_UCB ∧
      get_args "BstrapDQN_Ensemble" = some BstrapDQN_Ensemble ∧
      get_args "DDPG" = some DDPG ∧ get_args "REINFORCE" = some REINFORCE ∧
      get_args "PPO" = some PPO) ∧
    (∀ name, name ∉ modelNames → get_args name = none) := by
  refine ⟨⟨rfl, rfl, rfl, rfl, rfl, rfl, rfl, rfl, rfl, rfl⟩, ?_⟩
  intro name hn
  apply lookup_eq_none_of_forall_ne
  intro p hp
  simp only [modelNames, List.mem_cons, List.not_mem_nil, or_false] at hn
  push_neg at hn
  simp only [ MODELS, List.mem_cons, List.not_mem_nil, or_false] at hp
  rcases hp with h|h|h|h|h|h|h|h|h|h <;> subst h <;> simp_all

/-- Witness for get_args_lookup at the absent name "Foo". -/
theorem get_args_lookup_witness :
    "Foo" ∉ modelNames ∧ get_args "Foo" = none :=
  ⟨by decide, get_args_lookup.2 "Foo" (by decide)⟩

/-- C10: BstrapDQN_Ensemble is key-for-key identical to BstrapDQN,
binding the same model class models.BstrapDQN, the same agent class,
n_heads 10 and target_update_period 10000 (unlike BstrapDQN_UCB's
40000). -/
theorem bstrap_ensemble_identical :
    (∀ k, BstrapDQN_Ensemble k = BstrapDQN k) ∧
    get_args "BstrapDQN_Ensemble" = some BstrapDQN_Ensemble ∧
    BstrapDQN_Ensemble "model" = some (Val.cls "models.BstrapDQN") ∧
    BstrapDQN_Ensemble "agent" = some (Val.cls "agents.AgentDQN") ∧
    BstrapDQN_Ensemble "n_heads" = some (Val.nat 10) ∧
    BstrapDQN_Ensemble "target_update_period" = some (Val.nat 10000) ∧
    BstrapDQN_UCB "target_update_period" = some (Val.nat 40000) :=
  ⟨fun _ => rfl, rfl, rfl, rfl, rfl, rfl, rfl⟩

end defaults

namespace rundqn

/-- C9: make_agent builds the learning-rate schedule as
ConstSchedule(learn_rate); the exploration schedule is
PiecewiseSchedule([(0, 1.0), (explore_decay, 0.01)], outside 0.01)
when explore_decay > 0, and ConstSchedule(0.0) otherwise. -/
theorem schedule_construction (lr : ℚ) (d : ℤ) :
    (make_schedules lr d).1 = Schedule.constSchedule lr ∧
    (0 < d → (make_schedules lr d).2 =
      Schedule.piecewiseSchedule [(0, 1), (d, 1 / 100)] (1 / 100)) ∧
    (d ≤ 0 → (make_schedules lr d).2 = Schedule.constSchedule 0) := by
  refine ⟨rfl, fun hd => ?_, fun hd => ?_⟩
  · simp [make_schedules, hd]
  · simp [make_schedules, not_lt.2 hd]

/-- Witness for schedule_construction at lr = 5e-5, decay = 10^6. -/
theorem schedule_construction_witness :
    (0 : ℤ) < 1000000 ∧
    (make_schedules (5 / 100000) 1000000).1 = Schedule.constSchedule (5 / 100000) ∧
    (make_schedules (5 / 100000) 1000000).2 =
      Schedule.piecewiseSchedule [(0, 1), (1000000, 1 / 100)] (1 / 100) :=
  ⟨by decide, (schedule_construction (5 / 100000) 1000000).1,
   (schedule_construction (5 / 100000) 1000000).2.1 (by decide)⟩

end rundqn
